import Mathlib

/-!
Shallow embedding of the certstatus revocation-checking tool (Go).

Source layout:
  src/main.go          — CLI glue, certificateFromBytes, readCertificate,
                         getIssuerCertificate, sentinel error values
  src/certstatus_test.go — tests, including the exact expected output of
                         printStatusResponse and the revocationReason mapping

Bytes are modelled as List Nat; external library capabilities (pem.Decode,
x509.ParseCertificate, ocsp.ParseResponse, CRL parsing) are parameters of the
definitions, so theorems quantify over all behaviours of those libraries.
HTTP transport is a function from URL to an outcome, and the embedding is
instrumented with a trace of network events (get / body read to EOF / body
close) so that statements about call order and resource release are
expressible.
-/

namespace Certstatus

/-- A byte buffer. -/
abbrev Bytes := List Nat

instance {ε α : Type} [DecidableEq ε] [DecidableEq α] : DecidableEq (Except ε α) :=
  fun a b =>
    match a, b with
    | .ok x, .ok y =>
        if h : x = y then .isTrue (by rw [h])
        else .isFalse (by intro hc; cases hc; exact h rfl)
    | .error x, .error y =>
        if h : x = y then .isTrue (by rw [h])
        else .isFalse (by intro hc; cases hc; exact h rfl)
    | .ok _, .error _ => .isFalse (by intro hc; cases hc)
    | .error _, .ok _ => .isFalse (by intro hc; cases hc)

/-- Go pem.Block: a decoded PEM block with its label and payload bytes. -/
structure PemBlock where
  blockType : String
  blockBytes : Bytes
  deriving DecidableEq

/-- Go x509.Certificate, restricted to the fields this program reads.
Raw is the encoded (DER) certificate, kept verbatim by the parser. -/
structure Certificate where
  Raw : Bytes
  SerialNumber : Int
  IssuingCertificateURL : List String
  OCSPServer : List String
  CRLDistributionPoints : List String
  deriving DecidableEq

/-- The sentinel error values declared at the top of main.go, together with
a constructor for errors produced by an external library call
(x509.ParseCertificate, ocsp.ParseResponse, CRL parsing). -/
inductive GoError where
  | errFailedToFetchOCSPResponse
  | errFailedToGetResource
  | errFailedToReadCertificate
  | errFailedToReadResponseBody
  | errNoCertificate
  | errNoIssuerCertificate
  | errNoOCSPServersFound
  | errNoCRLDistributionPointsFound
  | libErr (msg : String)
  deriving DecidableEq

/-- The external X.509 library capabilities consumed by the program.
pemDecode returns the first PEM block found plus the remainder of the input;
Go documents that when no block is found, the whole input is returned as the
remainder. parseCertificate is x509.ParseCertificate. -/
structure X509Lib where
  pemDecode : Bytes → Option PemBlock × Bytes
  parseCertificate : Bytes → Except String Certificate

/-- certificateFromBytes (src/main.go lines 84-95): decode PEM armor if
present; a block with a label other than CERTIFICATE is errNoCertificate; a
CERTIFICATE block has its payload parsed; with no armor the bytes returned by
pem.Decode (the whole input) are parsed directly. -/
def certificateFromBytes (lib : X509Lib) (bytes : Bytes) : Except GoError Certificate :=
  match lib.pemDecode bytes with
  | (some block, _) =>
      if block.blockType ≠ "CERTIFICATE" then
        .error .errNoCertificate
      else
        match lib.parseCertificate block.blockBytes with
        | .ok c => .ok c
        | .error e => .error (.libErr e)
  | (none, rest) =>
      match lib.parseCertificate rest with
      | .ok c => .ok c
      | .error e => .error (.libErr e)

/-- readCertificate (src/main.go lines 97-117): read the file, then parse via
certificateFromBytes; either step failing is reported as the single error
errFailedToReadCertificate. The filesystem is a parameter. -/
def readCertificate (fs : String → Except String Bytes) (lib : X509Lib)
    (path : String) : Except GoError Certificate :=
  match fs path with
  | .error _ => .error .errFailedToReadCertificate
  | .ok contents =>
      match certificateFromBytes lib contents with
      | .error _ => .error .errFailedToReadCertificate
      | .ok c => .ok c

/-- Outcome of client.Get(url) followed by reading the response body:
either the Get itself fails at the network level (no response object), or a
response is obtained and ioutil.ReadAll on its body fails partway, or a
response is obtained and ReadAll yields the full body bytes. -/
inductive GetResult where
  | netErr
  | respReadErr
  | respBody (body : Bytes)
  deriving DecidableEq

/-- An HTTP client, as the HTTPClient interface of main.go: the outcome of a
GET for each URL. -/
abbrev HTTPClient := String → GetResult

/-- Network-resource events, in the order they happen: a GET issued for a
URL, the response body read through to EOF (fully drained), the response
body closed (connection released). -/
inductive NetEvent where
  | get (url : String)
  | readEOF (url : String)
  | close (url : String)
  deriving DecidableEq

/-- The loop of getIssuerCertificate (src/main.go lines 124-150) over the
issuer URLs, instrumented with the trace of network events. A failed Get
skips to the next URL (continue, no response to close). After a successful
Get the body close is deferred, so it is the last event on every path out of
the function: a body-read failure returns errFailedToReadResponseBody, a
parse failure returns errNoIssuerCertificate, a parse success breaks out and
the certificate is returned. (The second err check at lines 130-132 is dead:
err was already checked at line 126.) -/
def getIssuerLoop (client : HTTPClient) (lib : X509Lib) :
    List String → Except GoError Certificate × List NetEvent
  | [] => (.error .errNoIssuerCertificate, [])
  | url :: rest =>
      match client url with
      | .netErr =>
          let r := getIssuerLoop client lib rest
          (r.1, .get url :: r.2)
      | .respReadErr =>
          (.error .errFailedToReadResponseBody, [.get url, .close url])
      | .respBody body =>
          match certificateFromBytes lib body with
          | .error _ =>
              (.error .errNoIssuerCertificate,
                [.get url, .readEOF url, .close url])
          | .ok c =>
              (.ok c, [.get url, .readEOF url, .close url])

/-- getIssuerCertificate (src/main.go lines 119-157): run the loop over
cert.IssuingCertificateURL; when the loop ends with no issuer certificate
(empty list or every URL unreachable) the result is errNoIssuerCertificate,
which is already what the loop model returns for an exhausted list. -/
def getIssuerCertificate (client : HTTPClient) (lib : X509Lib)
    (cert : Certificate) : Except GoError Certificate × List NetEvent :=
  getIssuerLoop client lib cert.IssuingCertificateURL

/-! ## Spec-modelled components

The OCSP checker, CRL checker, status formatter and revocation-reason
mapping are exercised by src/certstatus_test.go (getOCSPServer,
getOCSPResponse, GetCRLResponse, printStatusResponse, statusMessage,
revocationReason) and their sentinel errors are declared in src/main.go, but
their defining code is not present under src/. They are modelled here from
spec.md sections 4.3, 4.4, 4.5 and the exact expectations of the tests. -/

/-- Modelled from the spec: the OCSP certificate status (spec section 3,
OCSPResult.status, mirroring the golang.org/x/crypto/ocsp status codes read
by the missing statusMessage function). -/
inductive OCSPStatus where
  | Good
  | Revoked
  | Unknown
  deriving DecidableEq

/-- Modelled from the spec: statusMessage, missing from src/, which renders
a status to the word checked by TestStatusMessage (Good renders "Good"). -/
def statusMessage : OCSPStatus → String
  | .Good => "Good"
  | .Revoked => "Revoked"
  | .Unknown => "Unknown"

/-- Modelled from the spec: revocationReason, missing from src/. Spec 4.3:
every recognized reason code (the golang.org/x/crypto/ocsp codes 0-6, 8-10;
7 is unused in RFC 5280) renders to its canonical English phrase —
TestRevocationReason pins KeyCompromise (1) to "Key compromise" — and any
unrecognized numeric code falls back to "Unspecified reason". -/
def revocationReason : Int → String
  | 0 => "Unspecified reason"
  | 1 => "Key compromise"
  | 2 => "CA compromise"
  | 3 => "Affiliation changed"
  | 4 => "Superseded"
  | 5 => "Cessation of operation"
  | 6 => "Certificate hold"
  | 8 => "Remove from CRL"
  | 9 => "Privilege withdrawn"
  | 10 => "AA compromise"
  | _ => "Unspecified reason"

/-- The recognized revocation-reason codes of golang.org/x/crypto/ocsp. -/
def recognizedReasonCodes : List Int := [0, 1, 2, 3, 4, 5, 6, 8, 9, 10]

/-- A Go time.Time instant already located in UTC, as carried verbatim from
an OCSP response or CRL entry. -/
structure GoTime where
  year : Nat
  month : Nat
  day : Nat
  hour : Nat
  minute : Nat
  second : Nat
  deriving DecidableEq

/-- Two-digit zero padding, as in the Go time.Time default rendering. -/
def pad2 (n : Nat) : String :=
  if n < 10 then "0" ++ toString n else toString n

/-- The Go time.Time.String() rendering of a UTC instant, the format pinned
by TestPrintStatusResponse: "2017-12-23 06:30:33 +0000 UTC". -/
def GoTime.render (t : GoTime) : String :=
  toString t.year ++ "-" ++ pad2 t.month ++ "-" ++ pad2 t.day ++ " " ++
    pad2 t.hour ++ ":" ++ pad2 t.minute ++ ":" ++ pad2 t.second ++
    " +0000 UTC"

/-- OCSPResult (spec section 3): serial number, status, revocation reason
code (present only when Revoked), and the three response timestamps. -/
structure OCSPResult where
  SerialNumber : Int
  Status : OCSPStatus
  RevocationReason : Option Int
  ProducedAt : GoTime
  ThisUpdate : GoTime
  NextUpdate : GoTime
  deriving DecidableEq

/-- Modelled from the spec: printStatusResponse, missing from src/. Spec 4.5
fixes the canonical layout — serial number line, blank line, status line,
blank line, produced-at / this-update / next-update lines — with a
revocation-reason line appended when a reason is present; the exact bytes
are pinned by TestPrintStatusResponse. -/
def printStatusResponse (r : OCSPResult) : String :=
  "Serial number: " ++ toString r.SerialNumber ++ "\n\n" ++
    "Status: " ++ statusMessage r.Status ++ "\n\n" ++
    "Produced at: " ++ r.ProducedAt.render ++ "\n" ++
    "This update: " ++ r.ThisUpdate.render ++ "\n" ++
    "Next update: " ++ r.NextUpdate.render ++ "\n" ++
    (match r.RevocationReason with
     | none => ""
     | some code => "Revocation reason: " ++ revocationReason code ++ "\n")

/-- A parsed OCSP response, as produced by the external ocsp.ParseResponse
capability with the issuer certificate as verification context. -/
structure OCSPResponse where
  SerialNumber : Int
  Status : OCSPStatus
  RevocationReason : Int
  ProducedAt : GoTime
  ThisUpdate : GoTime
  NextUpdate : GoTime
  deriving DecidableEq

/-- A revoked-certificate entry of a parsed CRL: serial number, revocation
time, reason code. -/
structure RevokedCert where
  SerialNumber : Int
  RevocationTime : GoTime
  Reason : Int
  deriving DecidableEq

/-- The external revocation-parsing capabilities: ocsp.ParseResponse (taking
the issuer certificate as the expected signer) and the CRL parser. -/
structure RevLib where
  parseOCSPResponse : Certificate → Bytes → Except String OCSPResponse
  parseCRL : Bytes → Except String (List RevokedCert)

/-- A transport for the revocation checkers: per URL, either a
transport-layer failure (connection failure, non-success HTTP status or
body-read failure, collapsed by spec 4.3) or the full response body. -/
abbrev RevTransport := String → Except Unit Bytes

/-- Modelled from the spec: checkOCSP (getOCSPResponse/getOCSPServer,
missing from src/). Spec 4.3: use the first URL of the leaf's OCSP-server
list; an empty list fails with NoOCSPServers (sentinel
errNoOCSPServersFound) before any network call; transport errors map to the
errFailedToFetchOCSPResponse sentinel; the response body is parsed as a
signed OCSP response against the issuer; one URL, one request, no fallback.
Bodies are drained and closed on every exit path (spec section 5). -/
def checkOCSP (lib : RevLib) (transport : RevTransport)
    (leaf issuer : Certificate) : Except GoError OCSPResult × List NetEvent :=
  match leaf.OCSPServer with
  | [] => (.error .errNoOCSPServersFound, [])
  | server :: _ =>
      match transport server with
      | .error _ => (.error .errFailedToFetchOCSPResponse, [.get server])
      | .ok body =>
          match lib.parseOCSPResponse issuer body with
          | .error e =>
              (.error (.libErr e), [.get server, .readEOF server, .close server])
          | .ok resp =>
              (.ok { SerialNumber := resp.SerialNumber
                     Status := resp.Status
                     RevocationReason :=
                       if resp.Status = .Revoked then some resp.RevocationReason
                       else none
                     ProducedAt := resp.ProducedAt
                     ThisUpdate := resp.ThisUpdate
                     NextUpdate := resp.NextUpdate },
                [.get server, .readEOF server, .close server])

/-- CRLResult (spec section 3): NotRevoked, or Revoked carrying the matching
entry. -/
inductive CRLResult where
  | NotRevoked
  | Revoked (entry : RevokedCert)
  deriving DecidableEq

/-- Modelled from the spec: the scan of checkCRL (spec 4.4) — the first CRL
entry whose serial number equals the leaf's serial number (arbitrary-
precision integer equality) makes the result Revoked with that entry;
otherwise NotRevoked. -/
def crlStatus (leaf : Certificate) (entries : List RevokedCert) : CRLResult :=
  match entries.find? (fun e => e.SerialNumber = leaf.SerialNumber) with
  | some e => .Revoked e
  | none => .NotRevoked

/-- Modelled from the spec: checkCRL (GetCRLResponse, missing from src/).
Spec 4.4: use the first URL of the leaf's CRL distribution-point list; an
empty list fails with NoCRLDistributionPoints (sentinel
errNoCRLDistributionPointsFound) before any network access; transport errors
map to the errFailedToGetResource sentinel; the body is parsed as a CRL and
scanned for the leaf's serial number. Bodies are drained and closed on every
exit path (spec section 5). -/
def checkCRL (lib : RevLib) (transport : RevTransport)
    (leaf : Certificate) : Except GoError CRLResult × List NetEvent :=
  match leaf.CRLDistributionPoints with
  | [] => (.error .errNoCRLDistributionPointsFound, [])
  | url :: _ =>
      match transport url with
      | .error _ => (.error .errFailedToGetResource, [.get url])
      | .ok body =>
          match lib.parseCRL body with
          | .error e =>
              (.error (.libErr e), [.get url, .readEOF url, .close url])
          | .ok entries =>
              (.ok (crlStatus leaf entries),
                [.get url, .readEOF url, .close url])

/-! ## Concrete fixtures

Small concrete instances of the library, client and certificate parameters,
used to instantiate the theorems at concrete inputs. -/

/-- A concrete parsed certificate whose encoding is the three bytes 1,2,3. -/
def certA : Certificate :=
  { Raw := [1, 2, 3], SerialNumber := 7, IssuingCertificateURL := [],
    OCSPServer := [], CRLDistributionPoints := [] }

/-- A concrete X.509 library: buffer [10] decodes to a PRIVATE KEY block,
buffer [20] decodes to a CERTIFICATE block wrapping [1,2,3], anything else
has no PEM armor; only [1,2,3] parses, to certA. -/
def lib0 : X509Lib :=
  { pemDecode := fun b =>
      if b = [10] then (some { blockType := "PRIVATE KEY", blockBytes := [11] }, [])
      else if b = [20] then (some { blockType := "CERTIFICATE", blockBytes := [1, 2, 3] }, [])
      else (none, b)
    parseCertificate := fun b =>
      if b = [1, 2, 3] then .ok certA else .error "malformed" }

/-- A certificate with one issuer URL. -/
def certU1 : Certificate :=
  { certA with IssuingCertificateURL := ["u1"] }

/-- A certificate with three issuer URLs. -/
def certU3 : Certificate :=
  { certA with IssuingCertificateURL := ["u0", "u1", "u2"] }

/-- A client for which every URL is unreachable. -/
def clientDead : HTTPClient := fun _ => .netErr

/-- A client for which every GET succeeds but every body read fails. -/
def clientReadFail : HTTPClient := fun _ => .respReadErr

/-- A client: u0 unreachable, u1 serves the PEM certificate buffer [20],
anything else serves an empty body. -/
def clientMixed : HTTPClient := fun u =>
  if u = "u0" then .netErr
  else if u = "u1" then .respBody [20]
  else .respBody []

/-! ## Helper lemmas -/

/-- The URLs fetched in a trace, in order. -/
def gets (tr : List NetEvent) : List String :=
  tr.filterMap (fun e => match e with | .get u => some u | _ => none)

theorem gets_append (a b : List NetEvent) : gets (a ++ b) = gets a ++ gets b := by
  simp [gets]

theorem gets_map_get (l : List String) : gets (l.map NetEvent.get) = l := by
  induction l with
  | nil => rfl
  | cons a l ih =>
      show a :: gets (l.map NetEvent.get) = a :: l
      rw [ih]

/-- Unreachable URLs at the front of the list are skipped: the loop result
on the remainder is unchanged, and the trace is prefixed by the failed GETs
in order. -/
theorem getIssuerLoop_skip (client : HTTPClient) (lib : X509Lib)
    (pre l : List String) (hpre : ∀ v ∈ pre, client v = .netErr) :
    getIssuerLoop client lib (pre ++ l)
      = ((getIssuerLoop client lib l).1,
          pre.map NetEvent.get ++ (getIssuerLoop client lib l).2) := by
  induction pre with
  | nil => rfl
  | cons u pre ih =>
      have hu : client u = .netErr := hpre u (by simp)
      have hrest : ∀ v ∈ pre, client v = .netErr := fun v hv => hpre v (by simp [hv])
      simp [getIssuerLoop, hu, ih hrest]

/-! ## Claims -/

/-- C1: getIssuerCertificate iterates the certificate's issuer-fetch URLs in
their listed order; a URL whose fetch fails at the network level is skipped;
at the first URL whose fetch succeeds nothing further is attempted (the GET
trace is exactly the failed prefix followed by that one URL, whatever the
body holds), and the result is the parsed certificate when the body parses,
or an immediate errNoIssuerCertificate failure when it does not. -/
theorem C1_issuer_iteration (client : HTTPClient) (lib : X509Lib)
    (cert : Certificate) (pre : List String) (u : String) (post : List String)
    (hsplit : cert.IssuingCertificateURL = pre ++ u :: post)
    (hpre : ∀ v ∈ pre, client v = .netErr)
    (hu : client u ≠ .netErr) :
    gets (getIssuerCertificate client lib cert).2 = pre ++ [u]
    ∧ (∀ body c, client u = .respBody body →
        certificateFromBytes lib body = .ok c →
        (getIssuerCertificate client lib cert).1 = .ok c)
    ∧ (∀ body e, client u = .respBody body →
        certificateFromBytes lib body = .error e →
        (getIssuerCertificate client lib cert).1
          = .error .errNoIssuerCertificate) := by
  unfold getIssuerCertificate
  rw [hsplit, getIssuerLoop_skip client lib pre (u :: post) hpre]
  cases hcu : client u with
  | netErr => exact absurd hcu hu
  | respReadErr =>
      have hloop : getIssuerLoop client lib (u :: post)
          = (.error .errFailedToReadResponseBody, [.get u, .close u]) := by
        simp [getIssuerLoop, hcu]
      refine ⟨?_, ?_, ?_⟩
      · rw [hloop, gets_append, gets_map_get]; rfl
      · intro body c hb; cases hb
      · intro body e hb; cases hb
  | respBody body0 =>
      cases hcb : certificateFromBytes lib body0 with
      | ok c0 =>
          have hloop : getIssuerLoop client lib (u :: post)
              = (.ok c0, [.get u, .readEOF u, .close u]) := by
            simp [getIssuerLoop, hcu, hcb]
          refine ⟨?_, ?_, ?_⟩
          · rw [hloop, gets_append, gets_map_get]; rfl
          · intro body c hb hc
            cases hb
            rw [hcb] at hc
            cases hc
            rw [hloop]
          · intro body e hb he
            cases hb
            rw [hcb] at he
            cases he
      | error e0 =>
          have hloop : getIssuerLoop client lib (u :: post)
              = (.error .errNoIssuerCertificate, [.get u, .readEOF u, .close u]) := by
            simp [getIssuerLoop, hcu, hcb]
          refine ⟨?_, ?_, ?_⟩
          · rw [hloop, gets_append, gets_map_get]; rfl
          · intro body c hb hc
            cases hb
            rw [hcb] at hc
            cases hc
          · intro body e hb _
            cases hb
            rw [hloop]

/-- C1 witness: with u0 unreachable and u1 serving a valid PEM certificate,
resolution fetches exactly u0 then u1 and returns the parsed certificate. -/
theorem C1_issuer_iteration_witness :
    gets (getIssuerCertificate clientMixed lib0 certU3).2 = ["u0", "u1"]
    ∧ (getIssuerCertificate clientMixed lib0 certU3).1 = .ok certA := by
  have h := C1_issuer_iteration clientMixed lib0 certU3 ["u0"] "u1" ["u2"]
    (by decide) (by decide) (by decide)
  exact ⟨h.1, h.2.1 [20] certA (by decide) (by decide)⟩

/-- C2 counterexample: the claim says the empty-issuer-URL case and the
all-URLs-unreachable case fail with two distinct, caller-distinguishable
errors (NoIssuerURLs vs NoReachableIssuer). On the code both cases return
the very same error value errNoIssuerCertificate: here a certificate with no
issuer URLs and one whose only URL is unreachable produce equal results, so
the caller cannot tell the two causes apart. -/
theorem C2_distinct_errors_counterexample :
    (getIssuerCertificate clientDead lib0 certA).1
        = .error .errNoIssuerCertificate
    ∧ (getIssuerCertificate clientDead lib0 certU1).1
        = .error .errNoIssuerCertificate
    ∧ (getIssuerCertificate clientDead lib0 certA).1
        = (getIssuerCertificate clientDead lib0 certU1).1 := by
  decide

/-- C2 amended: getIssuerCertificate fails with the single error value
errNoIssuerCertificate both when the certificate carries no issuer URLs —
making no network call — and when every listed URL is unreachable (after
attempting each URL in order); the two failure causes are reported with the
same error and are not distinguishable by the caller. -/
theorem C2_single_failure_error (client : HTTPClient) (lib : X509Lib)
    (cert cert2 : Certificate)
    (hempty : cert.IssuingCertificateURL = [])
    (hdead : ∀ u ∈ cert2.IssuingCertificateURL, client u = .netErr) :
    getIssuerCertificate client lib cert = (.error .errNoIssuerCertificate, [])
    ∧ getIssuerCertificate client lib cert2
        = (.error .errNoIssuerCertificate,
            cert2.IssuingCertificateURL.map NetEvent.get) := by
  constructor
  · unfold getIssuerCertificate
    rw [hempty]
    rfl
  · unfold getIssuerCertificate
    have h := getIssuerLoop_skip client lib cert2.IssuingCertificateURL [] hdead
    simpa [getIssuerLoop] using h

/-- C2 witness: concrete instances of the amended statement. -/
theorem C2_single_failure_error_witness :
    getIssuerCertificate clientDead lib0 certA
        = (.error .errNoIssuerCertificate, [])
    ∧ getIssuerCertificate clientDead lib0 certU1
        = (.error .errNoIssuerCertificate, [.get "u1"]) := by
  have h := C2_single_failure_error clientDead lib0 certA certU1
    (by decide) (by decide)
  exact ⟨h.1, h.2.trans (by decide)⟩

/-- C3: when the input decodes to a PEM block whose label is not
CERTIFICATE, certificateFromBytes fails with errNoCertificate whatever the
certificate parser would do (the block payload is never parsed); when no PEM
armor is present (pem.Decode finds no block and returns the whole input as
the remainder), the raw input bytes are parsed directly as the encoded
certificate. -/
theorem C3_pem_label_gate (lib : X509Lib) (bytes : Bytes) :
    (∀ block rest, lib.pemDecode bytes = (some block, rest) →
        block.blockType ≠ "CERTIFICATE" →
        ∀ parse2 : Bytes → Except String Certificate,
          certificateFromBytes { lib with parseCertificate := parse2 } bytes
            = .error .errNoCertificate)
    ∧ (lib.pemDecode bytes = (none, bytes) →
        certificateFromBytes lib bytes
          = match lib.parseCertificate bytes with
            | .ok c => .ok c
            | .error e => .error (.libErr e)) := by
  constructor
  · intro block rest hdec hty parse2
    unfold certificateFromBytes
    rw [show ({ lib with parseCertificate := parse2 } : X509Lib).pemDecode
          = lib.pemDecode from rfl, hdec]
    simp [hty]
  · intro hdec
    unfold certificateFromBytes
    rw [hdec]

/-- C3 witness: on buffer [10] (a PRIVATE KEY block under lib0) the loader
fails with errNoCertificate even under a parser that accepts everything; on
buffer [7] (no PEM armor under lib0) the raw bytes go to the parser. -/
theorem C3_pem_label_gate_witness :
    certificateFromBytes { lib0 with parseCertificate := fun _ => .ok certA } [10]
        = .error .errNoCertificate
    ∧ certificateFromBytes lib0 [7]
        = match lib0.parseCertificate [7] with
          | .ok c => .ok c
          | .error e => .error (.libErr e) :=
  ⟨(C3_pem_label_gate lib0 [10]).1
      { blockType := "PRIVATE KEY", blockBytes := [11] } []
      (by decide) (by decide) (fun _ => .ok certA),
   (C3_pem_label_gate lib0 [7]).2 (by decide)⟩

/-- C10: readCertificate either succeeds with a certificate or fails with
the single error errFailedToReadCertificate — every failure cause
(unreadable file, non-certificate PEM label, malformed bytes) collapses to
that one value, so two failing calls are indistinguishable; the Except
result is never an ok without a certificate. -/
theorem C10_collapsed_errors (fs : String → Except String Bytes)
    (lib : X509Lib) (path : String) :
    ((∃ c, readCertificate fs lib path = .ok c)
      ∨ readCertificate fs lib path = .error .errFailedToReadCertificate)
    ∧ (∀ (fs2 : String → Except String Bytes) (lib2 : X509Lib) (path2 : String),
        (∀ c, readCertificate fs lib path ≠ .ok c) →
        (∀ c, readCertificate fs2 lib2 path2 ≠ .ok c) →
        readCertificate fs lib path = readCertificate fs2 lib2 path2) := by
  have key : ∀ (fsx : String → Except String Bytes) (libx : X509Lib)
      (pathx : String),
      (∃ c, readCertificate fsx libx pathx = .ok c)
        ∨ readCertificate fsx libx pathx = .error .errFailedToReadCertificate := by
    intro fsx libx pathx
    unfold readCertificate
    cases hfs : fsx pathx with
    | error e => right; rfl
    | ok contents =>
        cases hcb : certificateFromBytes libx contents with
        | ok c => left; exact ⟨c, by simp [hcb]⟩
        | error e => right; simp [hcb]
  refine ⟨key fs lib path, ?_⟩
  intro fs2 lib2 path2 h1 h2
  rcases key fs lib path with ⟨c, hc⟩ | hfail
  · exact absurd hc (h1 c)
  · rcases key fs2 lib2 path2 with ⟨c, hc⟩ | hfail2
    · exact absurd hc (h2 c)
    · rw [hfail, hfail2]

/-- C10 witness: an unreadable file and a readable file holding a
non-certificate PEM block produce the same error value. -/
theorem C10_collapsed_errors_witness :
    readCertificate (fun _ => .error "enoent") lib0 "a"
      = readCertificate (fun _ => .ok [10]) lib0 "b" :=
  (C10_collapsed_errors (fun _ => .error "enoent") lib0 "a").2
    (fun _ => .ok [10]) lib0 "b"
    (by intro c hc; cases hc) (by intro c hc; cases hc)

/-- Timestamp fixture: 2017-12-23 06:30:33 UTC (from TestPrintStatusResponse). -/
def t1 : GoTime := ⟨2017, 12, 23, 6, 30, 33⟩

/-- Timestamp fixture: 2017-12-30 05:45:33 UTC (from TestPrintStatusResponse). -/
def t2 : GoTime := ⟨2017, 12, 30, 5, 45, 33⟩

/-- A CRL entry fixture revoking serial 7 for key compromise. -/
def entryR : RevokedCert := { SerialNumber := 7, RevocationTime := t1, Reason := 1 }

/-- A parsed-OCSP-response fixture with status Good. -/
def respGood : OCSPResponse :=
  { SerialNumber := 7, Status := .Good, RevocationReason := 0,
    ProducedAt := t1, ThisUpdate := t1, NextUpdate := t2 }

/-- A concrete revocation library: body [1] is the Good OCSP response, body
[2] is the one-entry CRL, everything else is malformed. -/
def rlib0 : RevLib :=
  { parseOCSPResponse := fun _ b => if b = [1] then .ok respGood else .error "bad"
    parseCRL := fun b => if b = [2] then .ok [entryR] else .error "bad" }

/-- A concrete transport: o1 serves the OCSP body, c1 the CRL body,
everything else fails at the transport level. -/
def transport0 : RevTransport := fun u =>
  if u = "o1" then .ok [1] else if u = "c1" then .ok [2] else .error ()

/-- A leaf fixture advertising one CRL distribution point. -/
def leafCRL : Certificate := { certA with CRLDistributionPoints := ["c1"] }

/-- C4: with an empty OCSP-server list checkOCSP fails with
errNoOCSPServersFound, and with an empty CRL distribution-point list
checkCRL fails with errNoCRLDistributionPointsFound, both with an empty
network trace (no network call); with a non-empty list each checker touches
only the first URL: every GET in its trace is for that URL and the outcome
is unchanged by replacing the later entries (no fallback). -/
theorem C4_first_url_only (lib : RevLib) (transport : RevTransport)
    (leaf issuer : Certificate) :
    (leaf.OCSPServer = [] →
        checkOCSP lib transport leaf issuer = (.error .errNoOCSPServersFound, []))
    ∧ (leaf.CRLDistributionPoints = [] →
        checkCRL lib transport leaf = (.error .errNoCRLDistributionPointsFound, []))
    ∧ (∀ s rest rest2, leaf.OCSPServer = s :: rest →
        checkOCSP lib transport leaf issuer
            = checkOCSP lib transport { leaf with OCSPServer := s :: rest2 } issuer
        ∧ ∀ u, NetEvent.get u ∈ (checkOCSP lib transport leaf issuer).2 → u = s)
    ∧ (∀ s rest rest2, leaf.CRLDistributionPoints = s :: rest →
        checkCRL lib transport leaf
            = checkCRL lib transport { leaf with CRLDistributionPoints := s :: rest2 }
        ∧ ∀ u, NetEvent.get u ∈ (checkCRL lib transport leaf).2 → u = s) := by
  refine ⟨?_, ?_, ?_, ?_⟩
  · intro h
    unfold checkOCSP
    rw [h]
  · intro h
    unfold checkCRL
    rw [h]
  · intro s rest rest2 h
    constructor
    · unfold checkOCSP
      rw [h]
    · intro u hu
      unfold checkOCSP at hu
      rw [h] at hu
      cases htr : transport s with
      | error e => simp [htr] at hu; exact hu
      | ok body =>
          cases hp : lib.parseOCSPResponse issuer body with
          | error e => simp [htr, hp] at hu; exact hu
          | ok resp => simp [htr, hp] at hu; exact hu
  · intro s rest rest2 h
    constructor
    · unfold checkCRL
      rw [h]
      rfl
    · intro u hu
      unfold checkCRL at hu
      rw [h] at hu
      cases htr : transport s with
      | error e => simp [htr] at hu; exact hu
      | ok body =>
          cases hp : lib.parseCRL body with
          | error e => simp [htr, hp] at hu; exact hu
          | ok entries => simp [htr, hp] at hu; exact hu

/-- C4 witness: on a certificate with no OCSP servers and no CRL
distribution points both checkers fail fast with an empty trace. -/
theorem C4_first_url_only_witness :
    checkOCSP rlib0 transport0 certA certA = (.error .errNoOCSPServersFound, [])
    ∧ checkCRL rlib0 transport0 certA = (.error .errNoCRLDistributionPointsFound, []) :=
  ⟨(C4_first_url_only rlib0 transport0 certA certA).1 rfl,
   (C4_first_url_only rlib0 transport0 certA certA).2.1 rfl⟩

/-- The ten canonical English phrases of the recognized reason codes. -/
def canonicalReasonPhrases : List String :=
  ["Unspecified reason", "Key compromise", "CA compromise", "Affiliation changed",
   "Superseded", "Cessation of operation", "Certificate hold", "Remove from CRL",
   "Privilege withdrawn", "AA compromise"]

/-- C5: revocationReason is a total function on reason codes: the
key-compromise code 1 renders as the literal phrase "Key compromise", every
recognized code renders to one of the canonical English phrases, and every
unrecognized numeric code renders as the fallback "Unspecified reason"
instead of failing. -/
theorem C5_reason_mapping_total (code : Int) :
    revocationReason 1 = "Key compromise"
    ∧ (code ∈ recognizedReasonCodes →
        revocationReason code ∈ canonicalReasonPhrases)
    ∧ (code ∉ recognizedReasonCodes →
        revocationReason code = "Unspecified reason") := by
  refine ⟨rfl, ?_, ?_⟩
  · intro h
    simp [recognizedReasonCodes] at h
    rcases h with h | h | h | h | h | h | h | h | h | h <;> subst h <;> decide
  · intro h
    simp [recognizedReasonCodes] at h
    unfold revocationReason
    split <;> simp_all

/-- C5 witness: the unrecognized code 7 falls back to "Unspecified reason",
and code 1 renders "Key compromise". -/
theorem C5_reason_mapping_total_witness :
    revocationReason 1 = "Key compromise"
    ∧ revocationReason 7 = "Unspecified reason" :=
  ⟨(C5_reason_mapping_total 7).1, (C5_reason_mapping_total 7).2.2 (by decide)⟩

/-- The canonical layout named by the claim, written from the claim's words:
serial number line, blank line, status line, blank line, produced-at /
this-update / next-update lines, timestamps rendered in UTC — and nothing
else. -/
def specCanonicalLayout (r : OCSPResult) : String :=
  "Serial number: " ++ toString r.SerialNumber ++ "\n\n" ++
    "Status: " ++ statusMessage r.Status ++ "\n\n" ++
    "Produced at: " ++ r.ProducedAt.render ++ "\n" ++
    "This update: " ++ r.ThisUpdate.render ++ "\n" ++
    "Next update: " ++ r.NextUpdate.render ++ "\n"

/-- The fixed known result of TestPrintStatusResponse: the serial, Good
status and three timestamps of testdata/twitter_ocsp_response_v1.der. -/
def testOCSPResult : OCSPResult :=
  { SerialNumber := 16190166165489431910151563605275097819
    Status := .Good
    RevocationReason := none
    ProducedAt := t1
    ThisUpdate := t1
    NextUpdate := t2 }

/-- A revoked result carrying a revocation reason. -/
def revokedResult : OCSPResult :=
  { SerialNumber := 5
    Status := .Revoked
    RevocationReason := some 1
    ProducedAt := t1
    ThisUpdate := t1
    NextUpdate := t2 }

set_option maxRecDepth 100000 in
/-- C6 counterexample: the claim says every OCSPResult is formatted as
exactly the seven-line canonical layout, but spec 4.5 also appends a
revocation-reason line when a reason is present: on a Revoked result with a
reason the formatter's output is not the bare canonical layout. -/
theorem C6_fixed_layout_counterexample :
    printStatusResponse revokedResult ≠ specCanonicalLayout revokedResult := by
  decide

set_option maxRecDepth 100000 in
/-- C6 amended: the formatter reproduces the canonical layout byte for byte
— exactly, for every result without a revocation reason; with a
revocation-reason line appended, for results carrying one — with timestamps
rendered in UTC, and on the fixed known result of TestPrintStatusResponse it
produces the exact expected multi-line string. -/
theorem C6_fixed_layout (r : OCSPResult) :
    (r.RevocationReason = none → printStatusResponse r = specCanonicalLayout r)
    ∧ (∀ code, r.RevocationReason = some code →
        printStatusResponse r
          = specCanonicalLayout r
              ++ ("Revocation reason: " ++ revocationReason code ++ "\n"))
    ∧ printStatusResponse testOCSPResult
        = "Serial number: 16190166165489431910151563605275097819\n\n" ++
            "Status: Good\n\n" ++
            "Produced at: 2017-12-23 06:30:33 +0000 UTC\n" ++
            "This update: 2017-12-23 06:30:33 +0000 UTC\n" ++
            "Next update: 2017-12-30 05:45:33 +0000 UTC\n" := by
  refine ⟨?_, ?_, ?_⟩
  · intro h
    unfold printStatusResponse specCanonicalLayout
    rw [h]
    simp
  · intro code h
    unfold printStatusResponse specCanonicalLayout
    rw [h]
  · decide

/-- C6 witness: the amended statement at the fixed known result, whose
reason is absent, so the output is exactly the canonical layout. -/
theorem C6_fixed_layout_witness :
    printStatusResponse testOCSPResult = specCanonicalLayout testOCSPResult :=
  (C6_fixed_layout testOCSPResult).1 rfl

/-- C7: with the CRL fetched and parsed, checkCRL returns the scan of the
entries against the leaf serial; the scan returns Revoked with an entry of
the list whose serial number equals (as an integer) the leaf serial exactly
when such an entry exists, and NotRevoked exactly when no entry's serial
equals the leaf's. -/
theorem C7_crl_serial_match (lib : RevLib) (transport : RevTransport)
    (leaf : Certificate) (url : String) (rest : List String)
    (body : Bytes) (entries : List RevokedCert)
    (hcdp : leaf.CRLDistributionPoints = url :: rest)
    (ht : transport url = .ok body)
    (hp : lib.parseCRL body = .ok entries) :
    (checkCRL lib transport leaf).1 = .ok (crlStatus leaf entries)
    ∧ (∀ e, crlStatus leaf entries = .Revoked e →
        e ∈ entries ∧ e.SerialNumber = leaf.SerialNumber)
    ∧ ((∃ e ∈ entries, e.SerialNumber = leaf.SerialNumber) →
        ∃ e, crlStatus leaf entries = .Revoked e)
    ∧ (crlStatus leaf entries = .NotRevoked ↔
        ∀ e ∈ entries, e.SerialNumber ≠ leaf.SerialNumber) := by
  refine ⟨?_, ?_⟩
  · unfold checkCRL
    rw [hcdp]
    simp [ht, hp]
  · unfold crlStatus
    split
    next e heq =>
      have hmem := List.mem_of_find?_eq_some heq
      have hser : e.SerialNumber = leaf.SerialNumber := by
        have := List.find?_some heq
        simpa using this
      refine ⟨?_, ?_, ?_⟩
      · intro e2 h2
        injection h2 with h2
        subst h2
        exact ⟨hmem, hser⟩
      · intro _
        exact ⟨e, rfl⟩
      · constructor
        · intro hcontra
          cases hcontra
        · intro hall
          exact absurd hser (hall e hmem)
    next heq =>
      have hnone := List.find?_eq_none.mp heq
      refine ⟨?_, ?_, ?_⟩
      · intro e2 h2
        cases h2
      · rintro ⟨e, hmem, hser⟩
        exact absurd (by simpa using hnone e hmem : e.SerialNumber ≠ leaf.SerialNumber) (by simp [hser])
      · exact ⟨fun _ e hmem => by simpa using hnone e hmem, fun _ => rfl⟩

/-- C7 witness: a CRL whose single entry carries the leaf serial 7 makes
checkCRL return Revoked with that entry. -/
theorem C7_crl_serial_match_witness :
    (checkCRL rlib0 transport0 leafCRL).1 = .ok (crlStatus leafCRL [entryR])
    ∧ crlStatus leafCRL [entryR] = .Revoked entryR :=
  ⟨(C7_crl_serial_match rlib0 transport0 leafCRL "c1" [] [2] [entryR]
      (by decide) (by decide) (by decide)).1,
   by decide⟩

/-- C8: on a buffer whose PEM armor is labeled CERTIFICATE and wraps bytes
the certificate parser accepts, certificateFromBytes succeeds; since
x509.ParseCertificate keeps the encoded input verbatim in Raw, re-encoding
the returned certificate round-trips to the encoded bytes inside the armor. -/
theorem C8_pem_roundtrip (lib : X509Lib) (bytes rest : Bytes)
    (block : PemBlock) (c : Certificate)
    (hraw : ∀ b cc, lib.parseCertificate b = .ok cc → cc.Raw = b)
    (hdec : lib.pemDecode bytes = (some block, rest))
    (hty : block.blockType = "CERTIFICATE")
    (hok : lib.parseCertificate block.blockBytes = .ok c) :
    certificateFromBytes lib bytes = .ok c ∧ c.Raw = block.blockBytes := by
  constructor
  · unfold certificateFromBytes
    rw [hdec]
    simp [hty, hok]
  · exact hraw _ _ hok

/-- C8 witness: lib0 satisfies the round-trip property of the parser, and on
the CERTIFICATE-armored buffer [20] loading succeeds with Raw equal to the
wrapped encoding. -/
theorem C8_pem_roundtrip_witness :
    certificateFromBytes lib0 [20] = .ok certA ∧ certA.Raw = [1, 2, 3] :=
  C8_pem_roundtrip lib0 [20] []
    { blockType := "CERTIFICATE", blockBytes := [1, 2, 3] } certA
    (by
      intro b cc h
      by_cases hb : b = [1, 2, 3]
      · subst hb
        have hcc : certA = cc := by
          have h2 : Except.ok (ε := String) certA = .ok cc := by
            simpa [lib0] using h
          injection h2
        rw [← hcc]
        rfl
      · simp [lib0, hb] at h)
    (by decide) (by decide) (by decide)

/-- Every GET of the issuer-resolution loop that obtained a response (the
client did not fail at the network level) has its body closed by exit, and
its body fully drained whenever the body read succeeded. -/
theorem getIssuerLoop_resources (client : HTTPClient) (lib : X509Lib)
    (l : List String) :
    ∀ u, NetEvent.get u ∈ (getIssuerLoop client lib l).2 →
      (client u ≠ .netErr → NetEvent.close u ∈ (getIssuerLoop client lib l).2)
      ∧ (∀ body, client u = .respBody body →
          NetEvent.readEOF u ∈ (getIssuerLoop client lib l).2) := by
  induction l with
  | nil => intro u hu; simp [getIssuerLoop] at hu
  | cons url rest ih =>
      intro u hu
      cases hcu : client url with
      | netErr =>
          rw [show getIssuerLoop client lib (url :: rest)
                = ((getIssuerLoop client lib rest).1,
                    .get url :: (getIssuerLoop client lib rest).2) by
              simp [getIssuerLoop, hcu]] at hu ⊢
          simp only [List.mem_cons] at hu
          rcases hu with hu | hu
          · injection hu with hu
            subst hu
            constructor
            · intro hne; exact absurd hcu hne
            · intro body hb; rw [hcu] at hb; cases hb
          · have := ih u hu
            constructor
            · intro hne
              simp only [List.mem_cons]
              exact Or.inr (this.1 hne)
            · intro body hb
              simp only [List.mem_cons]
              exact Or.inr (this.2 body hb)
      | respReadErr =>
          rw [show getIssuerLoop client lib (url :: rest)
                = (.error .errFailedToReadResponseBody, [.get url, .close url]) by
              simp [getIssuerLoop, hcu]] at hu ⊢
          simp at hu
          subst hu
          constructor
          · intro _; simp
          · intro body hb; rw [hcu] at hb; cases hb
      | respBody body0 =>
          cases hcb : certificateFromBytes lib body0 with
          | error e0 =>
              rw [show getIssuerLoop client lib (url :: rest)
                    = (.error .errNoIssuerCertificate,
                        [.get url, .readEOF url, .close url]) by
                  simp [getIssuerLoop, hcu, hcb]] at hu ⊢
              simp at hu
              subst hu
              exact ⟨fun _ => by simp, fun _ _ => by simp⟩
          | ok c0 =>
              rw [show getIssuerLoop client lib (url :: rest)
                    = (.ok c0, [.get url, .readEOF url, .close url]) by
                  simp [getIssuerLoop, hcu, hcb]] at hu ⊢
              simp at hu
              subst hu
              exact ⟨fun _ => by simp, fun _ _ => by simp⟩

/-- C9 counterexample: with one issuer URL whose GET succeeds but whose body
read fails partway, the function exits with the response body closed but
never fully drained: the trace holds the GET and the close but no
read-to-EOF event, so the body is not fully drained on this exit path. -/
theorem C9_drain_counterexample :
    (getIssuerCertificate clientReadFail lib0 certU1).1
        = .error .errFailedToReadResponseBody
    ∧ NetEvent.get "u1" ∈ (getIssuerCertificate clientReadFail lib0 certU1).2
    ∧ NetEvent.close "u1" ∈ (getIssuerCertificate clientReadFail lib0 certU1).2
    ∧ NetEvent.readEOF "u1" ∉ (getIssuerCertificate clientReadFail lib0 certU1).2 := by
  decide

/-- C9 amended: on every HTTP fetch performed by the core that obtains a
response, the connection is released (body closed) on every exit path —
success, parse failure and read failure alike — and the body is fully
drained on every path on which the body read itself succeeds; on a body-read
failure the response is closed without having been fully drained. For the
issuer-resolution loop this is proved of the source; the OCSP and CRL
checkers are spec-modelled, with a transport error subsuming body-read
failure, so every obtained body is drained and closed. -/
theorem C9_resource_release (client : HTTPClient) (lib : X509Lib)
    (cert : Certificate) (rlib : RevLib) (transport : RevTransport)
    (leaf issuer : Certificate) :
    (∀ u, NetEvent.get u ∈ (getIssuerCertificate client lib cert).2 →
        (client u ≠ .netErr →
          NetEvent.close u ∈ (getIssuerCertificate client lib cert).2)
        ∧ (∀ body, client u = .respBody body →
            NetEvent.readEOF u ∈ (getIssuerCertificate client lib cert).2))
    ∧ (∀ u body, NetEvent.get u ∈ (checkOCSP rlib transport leaf issuer).2 →
        transport u = .ok body →
        NetEvent.readEOF u ∈ (checkOCSP rlib transport leaf issuer).2
        ∧ NetEvent.close u ∈ (checkOCSP rlib transport leaf issuer).2)
    ∧ (∀ u body, NetEvent.get u ∈ (checkCRL rlib transport leaf).2 →
        transport u = .ok body →
        NetEvent.readEOF u ∈ (checkCRL rlib transport leaf).2
        ∧ NetEvent.close u ∈ (checkCRL rlib transport leaf).2) := by
  refine ⟨getIssuerLoop_resources client lib cert.IssuingCertificateURL, ?_, ?_⟩
  · intro u body
    unfold checkOCSP
    cases hl : leaf.OCSPServer with
    | nil =>
        intro hu _
        simp at hu
    | cons s tail =>
        cases htr : transport s with
        | error e =>
            simp only [htr]
            intro hu htb
            simp at hu
            subst hu
            rw [htb] at htr
            cases htr
        | ok body2 =>
            cases hp : rlib.parseOCSPResponse issuer body2 with
            | error e =>
                simp only [htr, hp]
                intro hu _
                simp at hu
                subst hu
                simp
            | ok resp =>
                simp only [htr, hp]
                intro hu _
                simp at hu
                subst hu
                simp
  · intro u body
    unfold checkCRL
    cases hl : leaf.CRLDistributionPoints with
    | nil =>
        intro hu _
        simp at hu
    | cons s tail =>
        cases htr : transport s with
        | error e =>
            simp only [htr]
            intro hu htb
            simp at hu
            subst hu
            rw [htb] at htr
            cases htr
        | ok body2 =>
            cases hp : rlib.parseCRL body2 with
            | error e =>
                simp only [htr, hp]
                intro hu _
                simp at hu
                subst hu
                simp
            | ok entries =>
                simp only [htr, hp]
                intro hu _
                simp at hu
                subst hu
                simp

/-- C9 witness: on the mixed client the successfully fetched issuer URL u1
has its body closed by exit. -/
theorem C9_resource_release_witness :
    NetEvent.close "u1" ∈ (getIssuerCertificate clientMixed lib0 certU3).2 :=
  (((C9_resource_release clientMixed lib0 certU3 rlib0 transport0
        certA certA).1 "u1" (by decide)).1) (by decide)

end Certstatus
